import Mathlib

/-!
Verification development for the ai-blog-generator pipeline core.

The definitions below are shallow embeddings of the Python source under
`backend/app/`: pure text algorithms (the blog writer's JSON recovery
parser) are translated function by function; stateful repository and
orchestrator code is modelled by explicit state passing with the external
collaborators (HTTP transport, LLM, datastore rows) supplied as explicit
arguments.  Python strings are modelled as `List Char` where character-level
algorithms run over them, and as Lean `String` where only equality matters.
-/

/-! ## Character helpers

Named characters used by the text algorithms; written via `Char.ofNat` so the
embedding stays independent of escape conventions. -/

def quoteChar : Char := Char.ofNat 34

def backslashChar : Char := Char.ofNat 92

def lbraceChar : Char := Char.ofNat 123

def rbraceChar : Char := Char.ofNat 125

def lbrackChar : Char := Char.ofNat 91

def rbrackChar : Char := Char.ofNat 93

def colonChar : Char := Char.ofNat 58

def commaChar : Char := Char.ofNat 44

def newlineChar : Char := Char.ofNat 10

def tabChar : Char := Char.ofNat 9

def crChar : Char := Char.ofNat 13

/-- Python `\s` / `str.strip` whitespace: space, tab, newline, carriage
return, vertical tab, form feed. -/
def isPySpace (c : Char) : Bool :=
  c == Char.ofNat 32 || c == tabChar || c == newlineChar || c == crChar ||
    c == Char.ofNat 11 || c == Char.ofNat 12

/-- JSON whitespace as skipped by `json.loads`: space, tab, newline, CR. -/
def isJsonWs (c : Char) : Bool :=
  c == Char.ofNat 32 || c == tabChar || c == newlineChar || c == crChar

def dropPySpaces (cs : List Char) : List Char :=
  cs.dropWhile isPySpace

/-- Python `str.strip()`: drop whitespace from both ends. -/
def pyStrip (cs : List Char) : List Char :=
  ((cs.dropWhile isPySpace).reverse.dropWhile isPySpace).reverse

/-- Is `needle` a prefix of `hay`? (`str.startswith`). -/
def charsStartsWith : List Char → List Char → Bool
  | [], _ => true
  | _ :: _, [] => false
  | n :: ns, h :: hs => n == h && charsStartsWith ns hs

/-- First index `i ≥ start` at which `needle` occurs in `hay`
(Python `str.find(needle, start)`), or `none` (Python `-1`). -/
def findSub (hay needle : List Char) (start : Nat) : Option Nat :=
  go (hay.drop start) start
where
  go : List Char → Nat → Option Nat
    | [], i => if needle.isEmpty then some i else none
    | c :: rest, i =>
      if charsStartsWith needle (c :: rest) then some i else go rest (i + 1)

/-- Does `needle` occur anywhere in `hay`? (Python `needle in hay`). -/
def containsSub (hay needle : List Char) : Bool :=
  (findSub hay needle 0).isSome

/-! ## JSON values

Model of the Python objects produced by `json.loads`.  Objects keep their
key/value pairs in parse order; lookup takes the last binding, matching
`dict` semantics when `json.loads` sees duplicate keys.  Numbers are
modelled as integers: the JSON payloads handled by the recovery parser
(title/subtitle/content/tags/meta_description and relevance scores) carry
only strings, arrays and integers. -/

inductive Json where
  | null : Json
  | bool (b : Bool) : Json
  | num (n : Int) : Json
  | str (s : List Char) : Json
  | arr (items : List Json) : Json
  | obj (kvs : List (List Char × Json)) : Json

/-- `dict` lookup (`data.get(key)`): last binding for the key wins. -/
def objLookup (kvs : List (List Char × Json)) (key : List Char) : Option Json :=
  (kvs.reverse.find? (fun p => p.1 == key)).map (fun p => p.2)

/-- `key in data` for a parsed JSON object. -/
def objHasKey (kvs : List (List Char × Json)) (key : List Char) : Bool :=
  (objLookup kvs key).isSome

/-! ## `json.loads`

A recursive-descent JSON reader over `List Char` with explicit fuel
(the input length bounds the recursion depth).  It models Python's strict
`json.loads` on the fragment exercised by this code base: it rejects
trailing garbage, rejects raw control characters inside strings, and
understands the standard escapes including `\uXXXX`. -/

def hexDigitVal (c : Char) : Option Nat :=
  if c.toNat ≥ 48 && c.toNat ≤ 57 then some (c.toNat - 48)
  else if c.toNat ≥ 97 && c.toNat ≤ 102 then some (c.toNat - 87)
  else if c.toNat ≥ 65 && c.toNat ≤ 70 then some (c.toNat - 55)
  else none

/-- Read the body of a JSON string (after the opening quote); returns the
decoded characters and the remaining input after the closing quote. -/
def jsonReadStr : Nat → List Char → Option (List Char × List Char)
  | 0, _ => none
  | _, [] => none
  | fuel + 1, c :: rest =>
    if c == quoteChar then some ([], rest)
    else if c == backslashChar then
      match rest with
      | [] => none
      | e :: rest2 =>
        let decoded : Option (Char × List Char) :=
          if e == quoteChar then some (quoteChar, rest2)
          else if e == backslashChar then some (backslashChar, rest2)
          else if e == Char.ofNat 47 then some (Char.ofNat 47, rest2)
          else if e == 'b' then some (Char.ofNat 8, rest2)
          else if e == 'f' then some (Char.ofNat 12, rest2)
          else if e == 'n' then some (newlineChar, rest2)
          else if e == 'r' then some (crChar, rest2)
          else if e == 't' then some (tabChar, rest2)
          else if e == 'u' then
            match rest2 with
            | h1 :: h2 :: h3 :: h4 :: rest3 =>
              match hexDigitVal h1, hexDigitVal h2, hexDigitVal h3, hexDigitVal h4 with
              | some a, some b, some cc, some d =>
                some (Char.ofNat (((a * 16 + b) * 16 + cc) * 16 + d), rest3)
              | _, _, _, _ => none
            | _ => none
          else none
        match decoded with
        | some (ch, rem) =>
          match jsonReadStr fuel rem with
          | some (s, rem2) => some (ch :: s, rem2)
          | none => none
        | none => none
    else if c.toNat < 32 then none
    else
      match jsonReadStr fuel rest with
      | some (s, rem2) => some (c :: s, rem2)
      | none => none

/-- Read a (possibly signed) JSON integer literal. -/
def jsonReadInt (cs : List Char) : Option (Int × List Char) :=
  match cs with
  | c :: rest =>
    if c == Char.ofNat 45 then
      match readNat rest 0 false with
      | some (n, rem) => some (-(n : Int), rem)
      | none => none
    else
      match readNat cs 0 false with
      | some (n, rem) => some ((n : Int), rem)
      | none => none
  | [] => none
where
  readNat : List Char → Nat → Bool → Option (Nat × List Char)
    | [], acc, seen => if seen then some (acc, []) else none
    | c :: rest, acc, seen =>
      if c.toNat ≥ 48 && c.toNat ≤ 57 then
        readNat rest (acc * 10 + (c.toNat - 48)) true
      else if seen then some (acc, c :: rest)
      else none

/-- Work items of the JSON reader: read a value, the members of an
object (after its opening brace and first key), or the items of an array
(after its opening bracket and first item).  A single fuel-indexed
function keeps the recursion structural. -/
inductive JTask where
  | val (cs : List Char)
  | members (cs : List Char) (acc : List (List Char × Json))
  | items (cs : List Char) (acc : List Json)

/-- Read one JSON value / object tail / array tail; returns the parsed
value with the unconsumed remainder. -/
def jsonRead : Nat → JTask → Option (Json × List Char)
  | 0, _ => none
  | fuel + 1, JTask.val cs =>
    match cs.dropWhile isJsonWs with
    | [] => none
    | c :: rest =>
      if c == quoteChar then
        match jsonReadStr (rest.length + 1) rest with
        | some (s, rem) => some (Json.str s, rem)
        | none => none
      else if c == lbraceChar then
        match rest.dropWhile isJsonWs with
        | [] => none
        | c2 :: rest2 =>
          if c2 == rbraceChar then some (Json.obj [], rest2)
          else jsonRead fuel (JTask.members (c2 :: rest2) [])
      else if c == lbrackChar then
        match rest.dropWhile isJsonWs with
        | [] => none
        | c2 :: rest2 =>
          if c2 == rbrackChar then some (Json.arr [], rest2)
          else jsonRead fuel (JTask.items (c2 :: rest2) [])
      else if charsStartsWith ('t' :: 'r' :: 'u' :: 'e' :: []) (c :: rest) then
        some (Json.bool true, (c :: rest).drop 4)
      else if charsStartsWith ('f' :: 'a' :: 'l' :: 's' :: 'e' :: []) (c :: rest) then
        some (Json.bool false, (c :: rest).drop 5)
      else if charsStartsWith ('n' :: 'u' :: 'l' :: 'l' :: []) (c :: rest) then
        some (Json.null, (c :: rest).drop 4)
      else
        match jsonReadInt (c :: rest) with
        | some (n, rem) => some (Json.num n, rem)
        | none => none
  | fuel + 1, JTask.members cs acc =>
    match cs.dropWhile isJsonWs with
    | [] => none
    | c :: rest =>
      if c == quoteChar then
        match jsonReadStr (rest.length + 1) rest with
        | some (key, rem) =>
          match rem.dropWhile isJsonWs with
          | c2 :: rem2 =>
            if c2 == colonChar then
              match jsonRead fuel (JTask.val rem2) with
              | some (v, rem3) =>
                match rem3.dropWhile isJsonWs with
                | c3 :: rem4 =>
                  if c3 == commaChar then
                    jsonRead fuel (JTask.members rem4 (acc ++ [(key, v)]))
                  else if c3 == rbraceChar then
                    some (Json.obj (acc ++ [(key, v)]), rem4)
                  else none
                | [] => none
              | none => none
            else none
          | [] => none
        | none => none
      else none
  | fuel + 1, JTask.items cs acc =>
    match jsonRead fuel (JTask.val cs) with
    | some (v, rem) =>
      match rem.dropWhile isJsonWs with
      | c :: rem2 =>
        if c == commaChar then jsonRead fuel (JTask.items rem2 (acc ++ [v]))
        else if c == rbrackChar then some (Json.arr (acc ++ [v]), rem2)
        else none
      | [] => none
    | none => none

/-- Model of Python `json.loads`: parse a full document, rejecting
trailing non-whitespace (on failure, `json.JSONDecodeError` → `none`). -/
def jsonParse (cs : List Char) : Option Json :=
  match jsonRead (3 * cs.length + 8) (JTask.val cs) with
  | some (j, rem) => if (rem.dropWhile isJsonWs).isEmpty then some j else none
  | none => none

/-! ## Blog writer: LLM response recovery parser

Shallow embedding of `BlogWriter` in
`backend/app/services/generators/blog_writer.py` (the pure text-recovery
methods; logging is dropped, `ValueError` becomes `none`). -/

namespace BlogWriter

def titleKey : List Char := "title".data

def contentKey : List Char := "content".data

/-- The quoted form `"title"` as it appears in the regex patterns. -/
def quotedTitle : List Char := quoteChar :: titleKey ++ [quoteChar]

/-- Consume an expected literal from the front of the input. -/
def stripLit : List Char → List Char → Option (List Char)
  | [], cs => some cs
  | e :: es, c :: cs => if e == c then stripLit es cs else none
  | _ :: _, [] => none

/-- Consume one expected character from the front of the input. -/
def stripChar (e : Char) (cs : List Char) : Option (List Char) :=
  match cs with
  | c :: rest => if c == e then some rest else none
  | [] => none

/-- Regex `\\?`: optionally consume one character (greedy; here the
optional character can never also start the required continuation, so the
greedy match never needs to backtrack). -/
def stripOpt (e : Char) (cs : List Char) : List Char :=
  match cs with
  | c :: rest => if c == e then rest else cs
  | [] => cs

/-- Does `\{\s*"title"\s*:` match at the head of the input? -/
def matchPat1 (cs : List Char) : Bool :=
  (do
    let r1 ← stripChar lbraceChar cs
    let r2 ← stripLit quotedTitle (dropPySpaces r1)
    let _ ← stripChar colonChar (dropPySpaces r2)
    pure ()).isSome

/-- Does `\{\s*\\?"title\\?"\s*:` match at the head of the input? -/
def matchPat2 (cs : List Char) : Bool :=
  (do
    let r1 ← stripChar lbraceChar cs
    let r2 := stripOpt backslashChar (dropPySpaces r1)
    let r3 ← stripChar quoteChar r2
    let r4 ← stripLit titleKey r3
    let r5 := stripOpt backslashChar r4
    let r6 ← stripChar quoteChar r5
    let _ ← stripChar colonChar (dropPySpaces r6)
    pure ()).isSome

/-- `re.search`: index of the leftmost match of a (position-anchored)
pattern, or `none`. -/
def searchPat (p : List Char → Bool) (cs : List Char) : Option Nat :=
  go cs 0
where
  go : List Char → Nat → Option Nat
    | [], i => if p [] then some i else none
    | c :: rest, i => if p (c :: rest) then some i else go rest (i + 1)

/-- The brace-matching scan of `_extract_json_object`: starting from a
match position, walk characters tracking string state (`in_string`),
escapes (`escape_next`) and the brace depth; return the consumed prefix
once the depth returns to zero. -/
def braceScan (cs : List Char) : Option (List Char) :=
  go cs false false 0 []
where
  go : List Char → Bool → Bool → Int → List Char → Option (List Char)
    | [], _, _, _, _ => none
    | c :: rest, esc, inStr, depth, acc =>
      if esc then go rest false inStr depth (c :: acc)
      else if c == backslashChar then go rest true inStr depth (c :: acc)
      else if c == quoteChar then go rest false (!inStr) depth (c :: acc)
      else if inStr then go rest false inStr depth (c :: acc)
      else if c == lbraceChar then go rest false inStr (depth + 1) (c :: acc)
      else if c == rbraceChar then
        if depth - 1 == 0 then some (c :: acc).reverse
        else go rest false inStr (depth - 1) (c :: acc)
      else go rest false inStr depth (c :: acc)

/-- `BlogWriter._extract_json_object`: search for a `{"title":` anchor
(two regex variants, tried in order; a variant whose brace scan finds no
balanced close falls through to the next) and return the balanced
`{...}` substring from the anchor. -/
def extractJsonObject (text : List Char) : Option (List Char) :=
  match tryPat matchPat1 text with
  | some js => some js
  | none => tryPat matchPat2 text
where
  tryPat (p : List Char → Bool) (text : List Char) : Option (List Char) :=
    match searchPat p text with
    | some s => braceScan (text.drop s)
    | none => none

/-- Earliest position `≥ start` of any of the three code-block markers
(`\`\`\`json`, `\`\`\` json`, `\`\`\`JSON`). -/
def findMarkerPos (text : List Char) (start : Nat) : Option Nat :=
  [("```json").data, ("``` json").data, ("```JSON").data].foldl
    (fun best marker =>
      match findSub text marker start with
      | some p =>
        match best with
        | some b => if p < b then some p else some b
        | none => some p
      | none => best)
    none

/-- Loop body of `BlogWriter._find_json_in_code_blocks`: find the next
marker, find the following `{`, brace-extract and `json.loads` it,
collect parsed `dict`s, and advance the search position.  Fuel bounds the
iteration count (each pass moves the search position forward). -/
def findJsonAux (text : List Char) : Nat → Nat → List Json → List Json
  | 0, _, acc => acc.reverse
  | fuel + 1, searchStart, acc =>
    match findMarkerPos text searchStart with
    | none => acc.reverse
    | some cb =>
      match findSub text [lbraceChar] cb with
      | none => acc.reverse
      | some js =>
        match extractJsonObject (text.drop js) with
        | some jstr =>
          let acc2 :=
            match jsonParse jstr with
            | some (Json.obj kvs) => Json.obj kvs :: acc
            | _ => acc
          findJsonAux text fuel (js + jstr.length) acc2
        | none => findJsonAux text fuel (cb + 7) acc

/-- `BlogWriter._find_json_in_code_blocks`. -/
def findJsonInCodeBlocks (text : List Char) : List Json :=
  findJsonAux text (text.length + 1) 0 []

/-- `BlogWriter._is_valid_article`: a `dict` with a `title` key, a
`content` key whose value is a string, and `len(content) >= 100`. -/
def isValidArticle : Json → Bool
  | Json.obj kvs =>
    if !(objHasKey kvs titleKey) then false
    else if !(objHasKey kvs contentKey) then false
    else
      match objLookup kvs contentKey with
      | some (Json.str c) => decide (100 ≤ c.length)
      | _ => false
  | _ => false

/-! Size measure used as recursion fuel for the nested-JSON unwrapping. -/

mutual

def jsonMeasure : Json → Nat
  | Json.null => 1
  | Json.bool _ => 1
  | Json.num _ => 1
  | Json.str s => s.length + 1
  | Json.arr items => 1 + jsonMeasureList items
  | Json.obj kvs => 1 + jsonMeasureKvs kvs

def jsonMeasureList : List Json → Nat
  | [] => 0
  | j :: rest => jsonMeasure j + jsonMeasureList rest

def jsonMeasureKvs : List (List Char × Json) → Nat
  | [] => 0
  | (k, v) :: rest => k.length + jsonMeasure v + jsonMeasureKvs rest

end

/-- Recursion body of `BlogWriter._unwrap_nested_json`: when the
`content` value is itself a fenced or raw JSON object carrying the
article fields, parse that inner object and recurse on it.  The fuel
bounds the recursion depth (the Python recursion consumes a strictly
smaller document each round). -/
def unwrapAux : Nat → Json → Json
  | 0, j => j
  | fuel + 1, j =>
    match j with
    | Json.obj kvs =>
      match objLookup kvs contentKey with
      | some (Json.str content) =>
        let cs := pyStrip content
        if charsStartsWith ("```json").data cs || charsStartsWith ("```").data cs then
          match findSub cs [lbraceChar] 0 with
          | some js =>
            match extractJsonObject (cs.drop js) with
            | some inner =>
              match jsonParse inner with
              | some (Json.obj ikvs) =>
                if objHasKey ikvs titleKey && objHasKey ikvs contentKey then
                  unwrapAux fuel (Json.obj ikvs)
                else Json.obj kvs
              | _ => Json.obj kvs
            | none => Json.obj kvs
          | none => Json.obj kvs
        else if cs.head? == some lbraceChar && containsSub cs quotedTitle then
          match jsonParse cs with
          | some (Json.obj ikvs) =>
            if objHasKey ikvs titleKey then unwrapAux fuel (Json.obj ikvs)
            else Json.obj kvs
          | _ => Json.obj kvs
        else Json.obj kvs
      | some _ => j
      | none => j
    | _ => j

/-- `BlogWriter._unwrap_nested_json`. -/
def unwrapNestedJson (j : Json) : Json :=
  unwrapAux (jsonMeasure j) j

/-- `BlogWriter._extract_string_value`: walk a JSON string value from its
opening quote applying the escape rules for `\"`, `\n`, `\t`, `\\` (any
other escaped character is kept verbatim); a string that runs out before
its closing quote is accepted only when longer than 100 characters. -/
def extractStringValue (cs : List Char) : Option (List Char) :=
  match cs with
  | c :: rest => if c == quoteChar then go rest [] else none
  | [] => none
where
  truncated (acc : List Char) : Option (List Char) :=
    if 100 < acc.length then some acc.reverse else none
  go : List Char → List Char → Option (List Char)
    | [], acc => truncated acc
    | c :: rest, acc =>
      if c == backslashChar then
        match rest with
        | [] => truncated (c :: acc)
        | n :: rest2 =>
          let ch :=
            if n == quoteChar then quoteChar
            else if n == 'n' then newlineChar
            else if n == 't' then tabChar
            else if n == backslashChar then backslashChar
            else n
          go rest2 (ch :: acc)
      else if c == quoteChar then some acc.reverse
      else go rest (c :: acc)

/-- Regex `"KEY"\s*:\s*"([^"]*)"` anchored at the head of the input:
returns the captured group. -/
def matchQuotedField (key : List Char) (cs : List Char) : Option (List Char) := do
  let r1 ← stripLit (quoteChar :: key ++ [quoteChar]) cs
  let r2 ← stripChar colonChar (dropPySpaces r1)
  let r3 ← stripChar quoteChar (dropPySpaces r2)
  let cap := r3.takeWhile (fun c => c != quoteChar)
  let rest := r3.drop cap.length
  match rest with
  | c :: _ => if c == quoteChar then some cap else none
  | [] => none

/-- `re.search` for `"KEY"\s*:\s*"([^"]*)"`: capture of the leftmost match. -/
def searchQuotedField (key : List Char) (cs : List Char) : Option (List Char) :=
  go cs
where
  go : List Char → Option (List Char)
    | [] => none
    | c :: rest =>
      match matchQuotedField key (c :: rest) with
      | some cap => some cap
      | none => go rest

/-- Regex `"content"\s*:\s*"` anchored at the head: on a match, return the
remainder of the input from the opening quote (the source slices the text
at `match.end() - 1`). -/
def matchContentStart (cs : List Char) : Option (List Char) := do
  let r1 ← stripLit (quoteChar :: contentKey ++ [quoteChar]) cs
  let r2 ← stripChar colonChar (dropPySpaces r1)
  let r3 := dropPySpaces r2
  match r3 with
  | c :: _ => if c == quoteChar then some r3 else none
  | [] => none

/-- Leftmost match of `"content"\s*:\s*"`, returning the text from its
opening quote. -/
def searchContentStart (cs : List Char) : Option (List Char) :=
  go cs
where
  go : List Char → Option (List Char)
    | [] => none
    | c :: rest =>
      match matchContentStart (c :: rest) with
      | some r => some r
      | none => go rest

/-- Regex `"tags"\s*:\s*\[(.*?)\]` with DOTALL (non-greedy: stop at the
first `]`): the captured group of the leftmost match. -/
def searchTagsField (cs : List Char) : Option (List Char) :=
  go cs
where
  matchAt (cs : List Char) : Option (List Char) := do
    let r1 ← stripLit (quoteChar :: ("tags").data ++ [quoteChar]) cs
    let r2 ← stripChar colonChar (dropPySpaces r1)
    let r3 ← stripChar lbrackChar (dropPySpaces r2)
    let cap := r3.takeWhile (fun c => c != rbrackChar)
    let rest := r3.drop cap.length
    match rest with
    | c :: _ => if c == rbrackChar then some cap else none
    | [] => none
  go : List Char → Option (List Char)
    | [] => none
    | c :: rest =>
      match matchAt (c :: rest) with
      | some cap => some cap
      | none => go rest

/-- Scan for quoted substrings; the fuel (initially the input length)
bounds the recursion. -/
def findAllQuotedAux : Nat → List Char → List (List Char)
  | 0, _ => []
  | _, [] => []
  | fuel + 1, c :: rest =>
    if c == quoteChar then
      let cap := rest.takeWhile (fun x => x != quoteChar)
      let rem := rest.drop cap.length
      match rem with
      | q :: rem2 => if q == quoteChar then cap :: findAllQuotedAux fuel rem2 else []
      | [] => []
    else findAllQuotedAux fuel rest

/-- `re.findall` for `"([^"]*)"`: all quoted substrings, left to right. -/
def findAllQuoted (cs : List Char) : List (List Char) :=
  findAllQuotedAux cs.length cs

/-- `BlogWriter._recover_truncated_json`: regex-recover `title`,
`subtitle`, a possibly-truncated `content` (accepted when longer than 100
characters), the first 10 `tags`, and `meta_description` out of a
truncated response. -/
def recoverTruncatedJson (text : List Char) : Option Json :=
  match findSub text [lbraceChar] 0 with
  | none => none
  | some js =>
    let jt := text.drop js
    match searchQuotedField titleKey jt, searchContentStart jt with
    | some title, some contentTail =>
      let subtitle := (searchQuotedField ("subtitle").data jt).getD []
      match extractStringValue contentTail with
      | some content =>
        if 100 < content.length then
          let tags :=
            match searchTagsField jt with
            | some tagsStr => (findAllQuoted tagsStr).take 10
            | none => []
          let metaDesc := (searchQuotedField ("meta_description").data jt).getD []
          some (Json.obj
            [(titleKey, Json.str title),
             (("subtitle").data, Json.str subtitle),
             (contentKey, Json.str content),
             (("tags").data, Json.arr (tags.map Json.str)),
             (("meta_description").data, Json.str metaDesc)])
        else none
      | none => none
    | _, _ => none

/-- The candidate a code-block object contributes after unwrapping, when
it passes validation. -/
def candidateOf (j : Json) : Option Json :=
  let u := unwrapNestedJson j
  if isValidArticle u then some u else none

/-- The `for parsed in reversed(json_objects)` loop of
`_parse_article_response`: first candidate to validate, scanning from the
end. -/
def pickFromRev : List Json → Option Json
  | [] => none
  | j :: rest =>
    match candidateOf j with
    | some u => some u
    | none => pickFromRev rest

/-- All validated candidates of a code-block object list, in transcript
order (specification-side view of the loop above). -/
def validCandidates (objs : List Json) : List Json :=
  objs.filterMap candidateOf

/-- `BlogWriter._parse_article_response`: code-block candidates last to
first, then direct `{"title":` extraction, then truncation recovery;
`none` models the final `ValueError`. -/
def parseArticleResponse (text : List Char) : Option Json :=
  match pickFromRev (findJsonInCodeBlocks text).reverse with
  | some j => some j
  | none =>
    let direct : Option Json :=
      match extractJsonObject text with
      | some jstr =>
        match jsonParse jstr with
        | some parsed =>
          let u := unwrapNestedJson parsed
          if isValidArticle u then some u else none
        | none => none
      | none => none
    match direct with
    | some j => some j
    | none =>
      match recoverTruncatedJson text with
      | some recovered =>
        if isValidArticle recovered then some recovered else none
      | none => none

end BlogWriter

/-! ## Pipeline orchestrator

Shallow embedding of `run_full_pipeline` / `run_full_pipeline_with_progress`
in `backend/app/scheduler/jobs.py`.  The three stage coroutines are
supplied as oracles (`Except` values: `ok` result or raised exception);
repository writes, Slack notifications and logging are side effects
outside the model.  Because the code between the `_pipeline_lock.locked()`
check and the `async with _pipeline_lock` acquisition contains no `await`,
the check-then-acquire pair is atomic under asyncio's cooperative
scheduling and is modelled as a single step on the lock state.  The model
emits an event trace recording lock transitions and stage invocations. -/

namespace Pipeline

inductive Stage where
  | scrape
  | evaluate
  | generate
deriving DecidableEq

inductive Ev where
  | lockAcquired
  | lockReleased
  | stageStart (s : Stage)
  | heroStart
  | skippedReturn
deriving DecidableEq

/-- The dict returned by `run_full_pipeline`, restricted to the fields the
claims speak about: the `skipped` marker and the caught pipeline error. -/
structure PipelineResult where
  skipped : Bool
  error : Option String
deriving DecidableEq

/-- `run_full_pipeline`: if the lock is held, return a skipped result
without touching any stage; otherwise run scrape → evaluate → generate
inside the lock under a single `try`, then (on success) the non-fatal
hero-image step. -/
def runFullPipeline (locked : Bool)
    (scrapeR evaluateR generateR : Except String Unit)
    (heroEnabled generatedAny : Bool) (_heroR : Except String Unit) :
    List Ev × PipelineResult :=
  if locked then
    ([Ev.skippedReturn], { skipped := true, error := none })
  else
    match scrapeR with
    | Except.error e =>
      ([Ev.lockAcquired, Ev.stageStart Stage.scrape, Ev.lockReleased],
        { skipped := false, error := some e })
    | Except.ok _ =>
      match evaluateR with
      | Except.error e =>
        ([Ev.lockAcquired, Ev.stageStart Stage.scrape, Ev.stageStart Stage.evaluate,
          Ev.lockReleased], { skipped := false, error := some e })
      | Except.ok _ =>
        match generateR with
        | Except.error e =>
          ([Ev.lockAcquired, Ev.stageStart Stage.scrape, Ev.stageStart Stage.evaluate,
            Ev.stageStart Stage.generate, Ev.lockReleased],
            { skipped := false, error := some e })
        | Except.ok _ =>
          let heroEvs := if heroEnabled && generatedAny then [Ev.heroStart] else []
          (Ev.lockAcquired :: Ev.stageStart Stage.scrape :: Ev.stageStart Stage.evaluate ::
            Ev.stageStart Stage.generate :: heroEvs ++ [Ev.lockReleased],
            { skipped := false, error := none })

/-- One progress event yielded by the streaming variant. -/
structure ProgressEvent where
  step : String
  status : String
deriving DecidableEq

/-- Progress events of one stage block of `run_full_pipeline_with_progress`:
a `running` event, then `completed` or `error` depending on the stage's
outcome — the exception is swallowed and control continues. -/
def stageProgress (name : String) (r : Except String Unit) : List ProgressEvent :=
  match r with
  | Except.ok _ => [⟨name, "running"⟩, ⟨name, "completed"⟩]
  | Except.error _ => [⟨name, "running"⟩, ⟨name, "error"⟩]

/-- `run_full_pipeline_with_progress`: if the lock is held, yield a single
error event and stop; otherwise run the three stages inside the lock, each
in its own `try`/`except`, yielding progress events, then a final done
event. -/
def runFullPipelineWithProgress (locked : Bool)
    (scrapeR evaluateR generateR : Except String Unit) :
    List ProgressEvent × List Ev :=
  if locked then
    ([⟨"error", "error"⟩], [Ev.skippedReturn])
  else
    (stageProgress "scrape" scrapeR ++ stageProgress "evaluate" evaluateR ++
      stageProgress "generate" generateR ++ [⟨"done", "completed"⟩],
      [Ev.lockAcquired, Ev.stageStart Stage.scrape, Ev.stageStart Stage.evaluate,
        Ev.stageStart Stage.generate, Ev.lockReleased])

def isStageEv : Ev → Bool
  | Ev.stageStart _ => true
  | _ => false

/-- Trace automaton: scanning from an unlocked state, every stage
invocation (and the hero step) must occur while the lock is held. -/
def stagesUnderLock : Bool → List Ev → Bool
  | _, [] => true
  | _, Ev.lockAcquired :: rest => stagesUnderLock true rest
  | _, Ev.lockReleased :: rest => stagesUnderLock false rest
  | inLock, Ev.stageStart _ :: rest => inLock && stagesUnderLock inLock rest
  | inLock, Ev.heroStart :: rest => inLock && stagesUnderLock inLock rest
  | inLock, Ev.skippedReturn :: rest => stagesUnderLock inLock rest

end Pipeline

/-! ## Generate stage quota and slug resolution

Embedding of the quota logic and the slug-collision loop of
`generate_articles_from_selected` in `backend/app/scheduler/jobs.py`.
The datastore is abstracted: `articlesThisEdition` is the value returned
by `article_repo.count_by_edition_since`, and the selected-source store is
a list already ordered by the repository's `priority`/`relevance_score`
ordering, of which `get_sources_for_generation(limit=n)` returns at most
the first `n` entries; each listed source's fate (an article already
exists / generation succeeds / the writer raises) is an oracle value. -/

namespace GenerateStage

/-- Configuration defaults from `backend/app/config.py` (`Settings`):
`MAX_ARTICLES_PER_EDITION = 3`, `AUTO_GENERATE_MIN_SCORE = 70`
(the float threshold compares exactly against integer scores). -/
structure Settings where
  MAX_ARTICLES_PER_EDITION : Int
  AUTO_GENERATE_MIN_SCORE : Int
deriving DecidableEq

def defaultSettings : Settings :=
  { MAX_ARTICLES_PER_EDITION := 3, AUTO_GENERATE_MIN_SCORE := 70 }

/-- Fate of one selected source inside the generation loop. -/
inductive GenOutcome where
  | existingArticle
  | success
  | failure (msg : String)
deriving DecidableEq

/-- Counters accumulated by `generate_articles_from_selected`. -/
structure GenResults where
  generated : Nat
  skipped_existing : Nat
  errors : Nat
deriving DecidableEq

/-- The per-source loop: an existing article is counted as
`skipped_existing` (no LLM call); otherwise the writer either produces an
article (`generated`) or raises, which appends an error and marks the
source failed. -/
def genLoop : List GenOutcome → GenResults
  | [] => { generated := 0, skipped_existing := 0, errors := 0 }
  | o :: rest =>
    let r := genLoop rest
    match o with
    | GenOutcome.existingArticle => { r with skipped_existing := r.skipped_existing + 1 }
    | GenOutcome.success => { r with generated := r.generated + 1 }
    | GenOutcome.failure _ => { r with errors := r.errors + 1 }

/-- Quota logic of `generate_articles_from_selected`:
`remaining_quota = MAX_ARTICLES_PER_EDITION - articles_this_edition`; when
the quota is non-positive the stage returns immediately with zero
generated; otherwise at most `remaining_quota` selected sources are
fetched and processed. -/
def generateArticlesFromSelected (settings : Settings)
    (articlesThisEdition : Nat) (selectedStore : List GenOutcome) : GenResults :=
  let remaining_quota : Int := settings.MAX_ARTICLES_PER_EDITION - articlesThisEdition
  if remaining_quota ≤ 0 then { generated := 0, skipped_existing := 0, errors := 0 }
  else genLoop (selectedStore.take remaining_quota.toNat)

/-- The slug-collision loop, with `article_repo.slug_exists` modelled as a
process oracle answering the successive calls in order (an exhausted
oracle answers `false`): models the `while await article_repo.slug_exists(slug)`
loop body `slug = f"{base_slug}-{counter}"; counter += 1`. -/
def slugWhile (base : String) : List Bool → String → Nat → String
  | [], slug, _ => slug
  | answer :: rest, slug, counter =>
    if answer then slugWhile base rest (base ++ "-" ++ toString counter) (counter + 1)
    else slug

/-- Slug resolution of `generate_articles_from_selected`: the initial
`if await article_repo.slug_exists(slug)` consumes the first oracle
answer; on `true`, the while loop starts with `base_slug = slug`,
`counter = 1`, re-querying the unchanged slug first. -/
def resolveSlugCollision (answers : List Bool) (slug : String) : String :=
  match answers with
  | [] => slug
  | answer :: rest => if answer then slugWhile slug rest slug 1 else slug

end GenerateStage

/-! ## Source evaluation updates

Embedding of the evaluation update paths: the per-source loop of
`evaluate_pending_sources` in `backend/app/scheduler/jobs.py`
(lines 226–257) and the batch-result loop shared by
`evaluate_sources_batch` / `evaluate_pending_sources` in
`backend/app/api/routes/sources.py` (lines 607–689). -/

namespace SourceEval

inductive SourceStatus where
  | pending
  | selected
  | processed
  | skipped
  | failed
deriving DecidableEq

/-- The Source-row fields touched or read by evaluation. -/
structure SourceRecord where
  relevance_score : Option Int
  suggested_topic : Option String
  reviewed_at : Option Nat
  is_selected : Bool
  status : SourceStatus
  selection_note : Option String
deriving DecidableEq

/-- `SourceEvaluation` from
`backend/app/services/generators/source_evaluator.py`: the score is an
integer clamped to [0, 100] by the evaluator. -/
structure SourceEvaluation where
  relevance_score : Int
  suggested_topic : String
  key_points : List String
  reason : String
  is_recommended : Bool

/-- The `update_data` dict built by the scheduler's
`evaluate_pending_sources` loop: score, topic and review timestamp always;
the selection fields only when the score meets the threshold. -/
structure EvalUpdate where
  relevance_score : Int
  suggested_topic : String
  reviewed_at : Nat
  selection_note : Option String

def evalUpdateData (ev : SourceEvaluation) (settings : GenerateStage.Settings)
    (now : Nat) : EvalUpdate :=
  { relevance_score := ev.relevance_score
    suggested_topic := ev.suggested_topic
    reviewed_at := now
    selection_note :=
      if ev.relevance_score ≥ settings.AUTO_GENERATE_MIN_SCORE then
        some ("Auto-selected: " ++ ev.reason)
      else none }

/-- `source_repo.update(source["id"], update_data)`: merge exactly the
keys present in `update_data` into the row, leaving the rest unchanged. -/
def applyEvalUpdate (s : SourceRecord) (u : EvalUpdate) : SourceRecord :=
  let s1 := { s with
    relevance_score := some u.relevance_score
    suggested_topic := some u.suggested_topic
    reviewed_at := some u.reviewed_at }
  match u.selection_note with
  | some note =>
    { s1 with
      is_selected := true
      status := SourceStatus.selected
      selection_note := some note }
  | none => s1

/-- One entry of the JSON array returned by
`SourceEvaluator.evaluate_sources_batch`: the LLM may omit or corrupt
either field (`eval_result.get(...)`). -/
structure BatchEvalResult where
  source_id : Option String
  relevance_score : Option Int

/-- A store write requested by the batch loop: target row id, score, and
whether the auto-selection fields were included. -/
structure BatchWrite where
  source_id : String
  relevance_score : Int
  auto_selected : Bool
deriving DecidableEq

/-- The shared batch-update loop of `evaluate_sources_batch` and
`evaluate_pending_sources` (routes): `valid_source_ids` is the set of ids
of the fetched input sources; a result with a falsy (`None`/empty)
`source_id`, or one outside the valid set, is skipped before any
`repo.update`; the score defaults to 50 when missing. -/
def batchApplyUpdates (validSourceIds : List (Option String))
    (threshold : Int) (evaluations : List BatchEvalResult) : List BatchWrite :=
  evaluations.filterMap fun ev =>
    match ev.source_id with
    | none => none
    | some sid =>
      if sid = "" then none
      else if (some sid) ∈ validSourceIds then
        let score := ev.relevance_score.getD 50
        some { source_id := sid, relevance_score := score,
               auto_selected := decide (score ≥ threshold) }
      else none

end SourceEval

/-! ## Pipeline state repository

Embedding of `PipelineStateRepository` in
`backend/app/db/repositories/pipeline_state_repo.py`: each operation is a
row transformer; datastore round-trips and `datetime.utcnow()` are
abstracted as explicit `now` arguments, step result blobs as opaque
numbers (`none` models the initial `{}`). -/

namespace PipelineStateRepo

inductive PStatus where
  | running
  | completed
  | failed
  | interrupted
deriving DecidableEq

inductive Edition where
  | morning
  | evening
deriving DecidableEq

inductive PStep where
  | scrape
  | evaluate
  | generate
deriving DecidableEq, BEq

/-- The `pipeline_state` row. -/
structure PRow where
  edition : Edition
  status : PStatus
  scrape_completed : Bool
  evaluate_completed : Bool
  generate_completed : Bool
  scrape_result : Option Nat
  evaluate_result : Option Nat
  generate_result : Option Nat
  error_message : Option String
  last_updated_at : Option Nat
  completed_at : Option Nat
deriving DecidableEq

/-- `PipelineStateRepository.create`: a fresh `running` row with all three
completion flags `False` and empty step results. -/
def create (edition : Edition) : PRow :=
  { edition := edition
    status := PStatus.running
    scrape_completed := false
    evaluate_completed := false
    generate_completed := false
    scrape_result := none
    evaluate_result := none
    generate_result := none
    error_message := none
    last_updated_at := none
    completed_at := none }

/-- `mark_step_completed`: set the given step's flag and result and bump
`last_updated_at`; nothing else changes. -/
def mark_step_completed (r : PRow) (step : PStep) (result : Nat) (now : Nat) : PRow :=
  match step with
  | PStep.scrape =>
    { r with
      scrape_completed := true
      scrape_result := some result
      last_updated_at := some now }
  | PStep.evaluate =>
    { r with
      evaluate_completed := true
      evaluate_result := some result
      last_updated_at := some now }
  | PStep.generate =>
    { r with
      generate_completed := true
      generate_result := some result
      last_updated_at := some now }

/-- `mark_completed`: set the status and timestamps only. -/
def mark_completed (r : PRow) (now : Nat) : PRow :=
  { r with
    status := PStatus.completed
    completed_at := some now
    last_updated_at := some now }

/-- `mark_failed`: set the status and the error message. -/
def mark_failed (r : PRow) (errorMessage : String) (now : Nat) : PRow :=
  { r with
    status := PStatus.failed
    error_message := some errorMessage
    last_updated_at := some now }

/-- `mark_interrupted`: set the status only. -/
def mark_interrupted (r : PRow) (now : Nat) : PRow :=
  { r with status := PStatus.interrupted, last_updated_at := some now }

/-- One tracker operation applied to a single run's row. -/
inductive POp where
  | stepCompleted (step : PStep) (result : Nat) (now : Nat)
  | completed (now : Nat)
  | failed (msg : String) (now : Nat)
  | interrupted (now : Nat)

def applyOp (r : PRow) : POp → PRow
  | POp.stepCompleted step result now => mark_step_completed r step result now
  | POp.completed now => mark_completed r now
  | POp.failed msg now => mark_failed r msg now
  | POp.interrupted now => mark_interrupted r now

/-- A sequence of tracker operations applied in order. -/
def applyOps (r : PRow) (ops : List POp) : PRow :=
  ops.foldl applyOp r

/-- Does this operation complete the given step? -/
def isStepOp (step : PStep) : POp → Bool
  | POp.stepCompleted s _ _ => s == step
  | _ => false

end PipelineStateRepo

/-! ## Reference validator

Embedding of `ReferenceValidator.validate_url` in
`backend/app/services/generators/reference_validator.py`.  The httpx
transport is an oracle: each of the HEAD and GET requests either returns a
response or raises one of the typed httpx exceptions.  The inner `try`
wraps only the HEAD call and catches only `httpx.HTTPStatusError` (the
"server rejects HEAD" case), falling back to GET; every other exception,
from either request, reaches the outer handlers. -/

namespace RefValidator

inductive HttpFailure where
  | statusError
  | timeout
  | tooManyRedirects
  | connectError
  | other (msg : String)
deriving DecidableEq

structure HttpResponse where
  status_code : Int
  url : String
deriving DecidableEq

structure ValidationResult where
  url : String
  is_valid : Bool
  status_code : Option Int
  final_url : Option String
  error : Option String
deriving DecidableEq

/-- `str(e)` for an exception reaching the generic `except Exception`
handler. -/
def genericErrorText : HttpFailure → String
  | HttpFailure.statusError => "HTTPStatusError"
  | HttpFailure.timeout => "Request timed out"
  | HttpFailure.tooManyRedirects => "Too many redirects"
  | HttpFailure.connectError => "Connection failed"
  | HttpFailure.other msg => msg

/-- `ReferenceValidator.validate_url`. -/
def validateUrl (url : String) (headR getR : Except HttpFailure HttpResponse) :
    ValidationResult :=
  let attempt : Except HttpFailure HttpResponse :=
    match headR with
    | Except.error HttpFailure.statusError => getR
    | r => r
  match attempt with
  | Except.ok resp =>
    { url := url
      is_valid := decide (200 ≤ resp.status_code ∧ resp.status_code < 400)
      status_code := some resp.status_code
      final_url := if resp.url ≠ url then some resp.url else none
      error := none }
  | Except.error HttpFailure.timeout =>
    { url := url, is_valid := false, status_code := none, final_url := none,
      error := some "Request timed out" }
  | Except.error HttpFailure.tooManyRedirects =>
    { url := url, is_valid := false, status_code := none, final_url := none,
      error := some "Too many redirects" }
  | Except.error HttpFailure.connectError =>
    { url := url, is_valid := false, status_code := none, final_url := none,
      error := some "Connection failed" }
  | Except.error f =>
    { url := url, is_valid := false, status_code := none, final_url := none,
      error := some (genericErrorText f) }

/-- The error text the claim's taxonomy assigns to a transport failure
that reaches the outer handlers (specification-side view of the
`except` chain). -/
def categorizedError : HttpFailure → String
  | HttpFailure.timeout => "Request timed out"
  | HttpFailure.tooManyRedirects => "Too many redirects"
  | HttpFailure.connectError => "Connection failed"
  | f => genericErrorText f

end RefValidator


/-! ## Specification-side definitions and concrete witness inputs -/

instance : Inhabited Json := ⟨Json.null⟩

instance : Nonempty (List (List Char × Json)) := ⟨[]⟩

namespace BlogWriter

/-- The validity predicate as the specification words it: a mapping with a
non-empty string title and a content string of length strictly greater
than 100.  Compared against `isValidArticle` (the code's check). -/
def specValidArticle : Json → Bool
  | Json.obj kvs =>
    (match objLookup kvs titleKey with
     | some (Json.str t) => !t.isEmpty
     | _ => false) &&
    (match objLookup kvs contentKey with
     | some (Json.str c) => decide (100 < c.length)
     | _ => false)
  | _ => false

end BlogWriter

/-- An LLM response carrying two fenced JSON blocks, both valid article
candidates (contents of 110 characters). -/
def c6text : List Char :=
  "```json\n\x7b\"title\": \"A\", \"content\": \"".data ++ List.replicate 110 'a' ++
    "\"\x7d\n```\nRevised final answer:\n```json\n\x7b\"title\": \"B\", \"content\": \"".data ++
    List.replicate 110 'b' ++ "\"\x7d\n```".data

/-- The parsed form of the second (last) fenced block of `c6text`. -/
def c6objB : Json :=
  Json.obj [(BlogWriter.titleKey, Json.str "B".data),
    (BlogWriter.contentKey, Json.str (List.replicate 110 'b'))]

/-- A candidate with an empty title and a content of exactly 100
characters. -/
def c7bad : Json :=
  Json.obj [(BlogWriter.titleKey, Json.str []),
    (BlogWriter.contentKey, Json.str (List.replicate 100 'a'))]

/-! ## Helper lemmas -/

namespace BlogWriter

theorem pickFromRev_eq_head (l : List Json) :
    pickFromRev l = (l.filterMap candidateOf).head? := by
  induction l with
  | nil => rfl
  | cons j rest ih =>
    simp only [pickFromRev, List.filterMap_cons]
    cases h : candidateOf j with
    | none => simpa [h] using ih
    | some u => simp [h]

theorem pickFromRev_reverse_eq (objs : List Json) :
    pickFromRev objs.reverse = (validCandidates objs).getLast? := by
  rw [pickFromRev_eq_head, List.filterMap_reverse, List.head?_reverse]
  rfl

end BlogWriter

namespace PipelineStateRepo

theorem applyOps_scrape_flag (ops : List POp) (r : PRow) :
    (applyOps r ops).scrape_completed =
      (r.scrape_completed || ops.any (isStepOp PStep.scrape)) := by
  induction ops generalizing r with
  | nil => simp [applyOps]
  | cons op rest ih =>
    rw [show applyOps r (op :: rest) = applyOps (applyOp r op) rest from rfl, ih]
    cases op with
    | stepCompleted s res now =>
      cases s with
      | scrape =>
        simp only [applyOp, mark_step_completed, List.any_cons, isStepOp]
        rw [show (PStep.scrape == PStep.scrape) = true from rfl]
        simp
      | evaluate =>
        simp only [applyOp, mark_step_completed, List.any_cons, isStepOp]
        rw [show (PStep.evaluate == PStep.scrape) = false from rfl]
        simp
      | generate =>
        simp only [applyOp, mark_step_completed, List.any_cons, isStepOp]
        rw [show (PStep.generate == PStep.scrape) = false from rfl]
        simp
    | completed now => simp [applyOp, mark_completed, isStepOp]
    | failed m now => simp [applyOp, mark_failed, isStepOp]
    | interrupted now => simp [applyOp, mark_interrupted, isStepOp]

theorem applyOps_evaluate_flag (ops : List POp) (r : PRow) :
    (applyOps r ops).evaluate_completed =
      (r.evaluate_completed || ops.any (isStepOp PStep.evaluate)) := by
  induction ops generalizing r with
  | nil => simp [applyOps]
  | cons op rest ih =>
    rw [show applyOps r (op :: rest) = applyOps (applyOp r op) rest from rfl, ih]
    cases op with
    | stepCompleted s res now =>
      cases s with
      | scrape =>
        simp only [applyOp, mark_step_completed, List.any_cons, isStepOp]
        rw [show (PStep.scrape == PStep.evaluate) = false from rfl]
        simp
      | evaluate =>
        simp only [applyOp, mark_step_completed, List.any_cons, isStepOp]
        rw [show (PStep.evaluate == PStep.evaluate) = true from rfl]
        simp
      | generate =>
        simp only [applyOp, mark_step_completed, List.any_cons, isStepOp]
        rw [show (PStep.generate == PStep.evaluate) = false from rfl]
        simp
    | completed now => simp [applyOp, mark_completed, isStepOp]
    | failed m now => simp [applyOp, mark_failed, isStepOp]
    | interrupted now => simp [applyOp, mark_interrupted, isStepOp]

theorem applyOps_generate_flag (ops : List POp) (r : PRow) :
    (applyOps r ops).generate_completed =
      (r.generate_completed || ops.any (isStepOp PStep.generate)) := by
  induction ops generalizing r with
  | nil => simp [applyOps]
  | cons op rest ih =>
    rw [show applyOps r (op :: rest) = applyOps (applyOp r op) rest from rfl, ih]
    cases op with
    | stepCompleted s res now =>
      cases s with
      | scrape =>
        simp only [applyOp, mark_step_completed, List.any_cons, isStepOp]
        rw [show (PStep.scrape == PStep.generate) = false from rfl]
        simp
      | evaluate =>
        simp only [applyOp, mark_step_completed, List.any_cons, isStepOp]
        rw [show (PStep.evaluate == PStep.generate) = false from rfl]
        simp
      | generate =>
        simp only [applyOp, mark_step_completed, List.any_cons, isStepOp]
        rw [show (PStep.generate == PStep.generate) = true from rfl]
        simp
    | completed now => simp [applyOp, mark_completed, isStepOp]
    | failed m now => simp [applyOp, mark_failed, isStepOp]
    | interrupted now => simp [applyOp, mark_interrupted, isStepOp]

end PipelineStateRepo

namespace GenerateStage

theorem genLoop_generated_le_length (l : List GenOutcome) :
    (genLoop l).generated ≤ l.length := by
  induction l with
  | nil => simp [genLoop]
  | cons o rest ih =>
    cases o <;> simp [genLoop] <;> omega

end GenerateStage

/-! ## Claim theorems -/

/-- C1: an invocation of `run_full_pipeline` while the process-local
pipeline lock is already held returns a result marked skipped
immediately — its whole trace is the skipped return, with no stage
invocation — and on every code path, in both the plain and the streaming
variant, stage execution happens only while the lock is held. -/
theorem c1_lock_mutual_exclusion (locked heroEnabled generatedAny : Bool)
    (scrapeR evaluateR generateR heroR : Except String Unit) :
    (locked = true →
      (Pipeline.runFullPipeline locked scrapeR evaluateR generateR heroEnabled
        generatedAny heroR).2.skipped = true ∧
      (Pipeline.runFullPipeline locked scrapeR evaluateR generateR heroEnabled
        generatedAny heroR).1 = [Pipeline.Ev.skippedReturn] ∧
      ((Pipeline.runFullPipeline locked scrapeR evaluateR generateR heroEnabled
        generatedAny heroR).1.filter Pipeline.isStageEv) = []) ∧
    (Pipeline.stagesUnderLock false
      (Pipeline.runFullPipeline locked scrapeR evaluateR generateR heroEnabled
        generatedAny heroR).1 = true) ∧
    (locked = true →
      ((Pipeline.runFullPipelineWithProgress locked scrapeR evaluateR generateR).2.filter
        Pipeline.isStageEv) = []) ∧
    (Pipeline.stagesUnderLock false
      (Pipeline.runFullPipelineWithProgress locked scrapeR evaluateR generateR).2 = true) := by
  refine ⟨?_, ?_, ?_, ?_⟩
  · intro h
    subst h
    exact ⟨rfl, rfl, rfl⟩
  · cases locked with
    | true => rfl
    | false =>
      cases scrapeR with
      | error e => rfl
      | ok u =>
        cases evaluateR with
        | error e => rfl
        | ok u2 =>
          cases generateR with
          | error e => rfl
          | ok u3 =>
            simp only [Pipeline.runFullPipeline]
            cases h : heroEnabled && generatedAny <;>
              simp [h, Pipeline.stagesUnderLock]
  · intro h
    subst h
    rfl
  · cases locked with
    | true => rfl
    | false => rfl

/-- C1 witness: with the lock held the call is skipped; with the lock
free (hero-image step included) all stage events fall inside the lock. -/
theorem c1_witness :
    (true = true ∧
      (Pipeline.runFullPipeline true (Except.ok ()) (Except.ok ()) (Except.ok ())
        false false (Except.ok ())).2.skipped = true) ∧
    Pipeline.stagesUnderLock false
      (Pipeline.runFullPipeline false (Except.ok ()) (Except.ok ()) (Except.ok ())
        true true (Except.ok ())).1 = true :=
  ⟨⟨rfl, ((c1_lock_mutual_exclusion true false false (Except.ok ()) (Except.ok ())
      (Except.ok ()) (Except.ok ())).1 rfl).1⟩,
   (c1_lock_mutual_exclusion false true true (Except.ok ()) (Except.ok ())
      (Except.ok ()) (Except.ok ())).2.1⟩

/-- C2 counterexample: in `run_full_pipeline` the three stages sit in a
single try/except, so when the scrape stage raises, the evaluate and
generate stages never start; the exception is caught at the pipeline
level and recorded in the result. -/
theorem c2_counterexample :
    Pipeline.Ev.stageStart Pipeline.Stage.evaluate ∉
      (Pipeline.runFullPipeline false (Except.error "boom") (Except.ok ()) (Except.ok ())
        false false (Except.ok ())).1 ∧
    Pipeline.Ev.stageStart Pipeline.Stage.generate ∉
      (Pipeline.runFullPipeline false (Except.error "boom") (Except.ok ()) (Except.ok ())
        false false (Except.ok ())).1 ∧
    (Pipeline.runFullPipeline false (Except.error "boom") (Except.ok ()) (Except.ok ())
        false false (Except.ok ())).2.error = some "boom" := by
  refine ⟨?_, ?_, rfl⟩ <;> decide

/-- C2 amended: in `run_full_pipeline_with_progress` each stage is
independently try/except-wrapped, so an exception raised by the scrape
stage still lets the evaluate and generate stages run, an exception in
evaluate still lets generate run, every stage is invoked on every
unlocked run, and the pipeline always reaches its done event. -/
theorem c2_amended_progress_stages_run (scrapeR evaluateR generateR : Except String Unit) :
    (∀ msg, scrapeR = Except.error msg →
      (⟨"scrape", "error"⟩ : Pipeline.ProgressEvent) ∈
        (Pipeline.runFullPipelineWithProgress false scrapeR evaluateR generateR).1 ∧
      (⟨"evaluate", "running"⟩ : Pipeline.ProgressEvent) ∈
        (Pipeline.runFullPipelineWithProgress false scrapeR evaluateR generateR).1 ∧
      (⟨"generate", "running"⟩ : Pipeline.ProgressEvent) ∈
        (Pipeline.runFullPipelineWithProgress false scrapeR evaluateR generateR).1) ∧
    (∀ msg, evaluateR = Except.error msg →
      (⟨"evaluate", "error"⟩ : Pipeline.ProgressEvent) ∈
        (Pipeline.runFullPipelineWithProgress false scrapeR evaluateR generateR).1 ∧
      (⟨"generate", "running"⟩ : Pipeline.ProgressEvent) ∈
        (Pipeline.runFullPipelineWithProgress false scrapeR evaluateR generateR).1) ∧
    (Pipeline.Ev.stageStart Pipeline.Stage.scrape ∈
        (Pipeline.runFullPipelineWithProgress false scrapeR evaluateR generateR).2 ∧
     Pipeline.Ev.stageStart Pipeline.Stage.evaluate ∈
        (Pipeline.runFullPipelineWithProgress false scrapeR evaluateR generateR).2 ∧
     Pipeline.Ev.stageStart Pipeline.Stage.generate ∈
        (Pipeline.runFullPipelineWithProgress false scrapeR evaluateR generateR).2) ∧
    ((⟨"done", "completed"⟩ : Pipeline.ProgressEvent) ∈
      (Pipeline.runFullPipelineWithProgress false scrapeR evaluateR generateR).1) := by
  refine ⟨?_, ?_, ?_, ?_⟩
  · intro msg h
    subst h
    cases evaluateR <;> cases generateR <;>
      simp [Pipeline.runFullPipelineWithProgress, Pipeline.stageProgress]
  · intro msg h
    subst h
    cases scrapeR <;> cases generateR <;>
      simp [Pipeline.runFullPipelineWithProgress, Pipeline.stageProgress]
  · refine ⟨?_, ?_, ?_⟩ <;> simp [Pipeline.runFullPipelineWithProgress]
  · cases scrapeR <;> cases evaluateR <;> cases generateR <;>
      simp [Pipeline.runFullPipelineWithProgress, Pipeline.stageProgress]

/-- C2 amended witness: a failing scrape stage still lets evaluate and
generate start in the streaming variant. -/
theorem c2_amended_witness :
    (Except.error "scrape down" : Except String Unit) = Except.error "scrape down" ∧
      (⟨"evaluate", "running"⟩ : Pipeline.ProgressEvent) ∈
        (Pipeline.runFullPipelineWithProgress false (Except.error "scrape down")
          (Except.ok ()) (Except.ok ())).1 ∧
      (⟨"generate", "running"⟩ : Pipeline.ProgressEvent) ∈
        (Pipeline.runFullPipelineWithProgress false (Except.error "scrape down")
          (Except.ok ()) (Except.ok ())).1 :=
  ⟨rfl,
    ((c2_amended_progress_stages_run (Except.error "scrape down")
      (Except.ok ()) (Except.ok ())).1 "scrape down" rfl).2.1,
    ((c2_amended_progress_stages_run (Except.error "scrape down")
      (Except.ok ()) (Except.ok ())).1 "scrape down" rfl).2.2⟩

/-- C3: every store write issued by the batch-evaluation update loop
targets a source id drawn from the batch's input set: a result whose
`source_id` is missing, empty, or outside the valid id set is discarded
before any update, so a relevance score is never written to a source
outside the input set. -/
theorem c3_batch_writes_only_valid_ids (validSourceIds : List (Option String))
    (threshold : Int) (evaluations : List SourceEval.BatchEvalResult)
    (w : SourceEval.BatchWrite)
    (hw : w ∈ SourceEval.batchApplyUpdates validSourceIds threshold evaluations) :
    (some w.source_id) ∈ validSourceIds ∧ w.source_id ≠ "" ∧
      ∃ ev ∈ evaluations, ev.source_id = some w.source_id := by
  rcases List.mem_filterMap.mp hw with ⟨ev, hev, hf⟩
  rcases hsid : ev.source_id with _ | sid
  · rw [hsid] at hf
    simp at hf
  · rw [hsid] at hf
    by_cases hemp : sid = ""
    · simp [hemp] at hf
    · by_cases hmem : (some sid) ∈ validSourceIds
      · simp only [hemp, hmem, if_neg, if_pos, if_true] at hf
        have hw2 : w.source_id = sid := by
          cases hf
          rfl
        rw [hw2]
        exact ⟨hmem, hemp, ⟨ev, hev, hsid⟩⟩
      · simp [hemp, hmem] at hf

/-- C3 witness: of three batch results — one legitimate, one with a
corrupted id, one with a missing id — only the legitimate one produces a
write, and its id lies in the input set. -/
theorem c3_witness :
    (({ source_id := "a", relevance_score := 80, auto_selected := true } :
        SourceEval.BatchWrite) ∈
      SourceEval.batchApplyUpdates [some "a"] 70
        [{ source_id := some "a", relevance_score := some 80 },
         { source_id := some "zz", relevance_score := some 90 },
         { source_id := none, relevance_score := some 10 }]) ∧
    (some "a") ∈ [some "a"] ∧ ("a" : String) ≠ "" :=
  ⟨by decide,
    (c3_batch_writes_only_valid_ids [some "a"] 70
      [{ source_id := some "a", relevance_score := some 80 },
       { source_id := some "zz", relevance_score := some 90 },
       { source_id := none, relevance_score := some 10 }]
      { source_id := "a", relevance_score := 80, auto_selected := true } (by decide)).1,
    (c3_batch_writes_only_valid_ids [some "a"] 70
      [{ source_id := some "a", relevance_score := some 80 },
       { source_id := some "zz", relevance_score := some 90 },
       { source_id := none, relevance_score := some 10 }]
      { source_id := "a", relevance_score := 80, auto_selected := true } (by decide)).2.1⟩

/-- C4: when the count of articles already created for the current
edition reaches `MAX_ARTICLES_PER_EDITION`, the generate stage creates
zero articles regardless of how many selected sources are available;
otherwise it generates at most the remaining quota. -/
theorem c4_edition_quota (settings : GenerateStage.Settings) (articlesThisEdition : Nat)
    (selectedStore : List GenerateStage.GenOutcome) :
    (settings.MAX_ARTICLES_PER_EDITION ≤ (articlesThisEdition : Int) →
      (GenerateStage.generateArticlesFromSelected settings articlesThisEdition
        selectedStore).generated = 0) ∧
    ((articlesThisEdition : Int) < settings.MAX_ARTICLES_PER_EDITION →
      ((GenerateStage.generateArticlesFromSelected settings articlesThisEdition
        selectedStore).generated : Int) ≤
        settings.MAX_ARTICLES_PER_EDITION - articlesThisEdition) := by
  constructor
  · intro h
    have hq : settings.MAX_ARTICLES_PER_EDITION - (articlesThisEdition : Int) ≤ 0 := by
      omega
    simp [GenerateStage.generateArticlesFromSelected, hq]
  · intro h
    have hq : ¬ (settings.MAX_ARTICLES_PER_EDITION - (articlesThisEdition : Int) ≤ 0) := by
      omega
    simp only [GenerateStage.generateArticlesFromSelected, if_neg hq]
    have h1 := GenerateStage.genLoop_generated_le_length
      (selectedStore.take
        (settings.MAX_ARTICLES_PER_EDITION - (articlesThisEdition : Int)).toNat)
    have h2 : (selectedStore.take
        (settings.MAX_ARTICLES_PER_EDITION - (articlesThisEdition : Int)).toNat).length ≤
        (settings.MAX_ARTICLES_PER_EDITION - (articlesThisEdition : Int)).toNat := by
      simp [List.length_take]
    have h3 : (((settings.MAX_ARTICLES_PER_EDITION -
        (articlesThisEdition : Int)).toNat : Int)) =
        settings.MAX_ARTICLES_PER_EDITION - (articlesThisEdition : Int) := by omega
    omega

/-- C4 witness: with the default cap of 3 and 3 morning articles already
created, a run over five available selected sources generates nothing;
with 2 already created it generates at most one. -/
theorem c4_witness :
    (GenerateStage.defaultSettings.MAX_ARTICLES_PER_EDITION ≤ ((3 : Nat) : Int) ∧
      (GenerateStage.generateArticlesFromSelected GenerateStage.defaultSettings 3
        [GenerateStage.GenOutcome.success, GenerateStage.GenOutcome.success,
         GenerateStage.GenOutcome.success, GenerateStage.GenOutcome.success,
         GenerateStage.GenOutcome.success]).generated = 0) ∧
    (((2 : Nat) : Int) < GenerateStage.defaultSettings.MAX_ARTICLES_PER_EDITION ∧
      ((GenerateStage.generateArticlesFromSelected GenerateStage.defaultSettings 2
        [GenerateStage.GenOutcome.success, GenerateStage.GenOutcome.success,
         GenerateStage.GenOutcome.success, GenerateStage.GenOutcome.success,
         GenerateStage.GenOutcome.success]).generated : Int) ≤
        GenerateStage.defaultSettings.MAX_ARTICLES_PER_EDITION - 2) :=
  ⟨⟨by decide,
    (c4_edition_quota GenerateStage.defaultSettings 3
      [GenerateStage.GenOutcome.success, GenerateStage.GenOutcome.success,
       GenerateStage.GenOutcome.success, GenerateStage.GenOutcome.success,
       GenerateStage.GenOutcome.success]).1 (by decide)⟩,
   ⟨by decide,
    (c4_edition_quota GenerateStage.defaultSettings 2
      [GenerateStage.GenOutcome.success, GenerateStage.GenOutcome.success,
       GenerateStage.GenOutcome.success, GenerateStage.GenOutcome.success,
       GenerateStage.GenOutcome.success]).2 (by decide)⟩⟩

/-- C5: a source whose evaluation score meets `AUTO_GENERATE_MIN_SCORE`
is marked `is_selected` with status selected and an auto-selection note,
while a source below the threshold keeps its selection state
(`is_selected`, `status`, `selection_note`) unchanged; the relevance
score is written either way. -/
theorem c5_auto_selection (settings : GenerateStage.Settings)
    (s : SourceEval.SourceRecord) (ev : SourceEval.SourceEvaluation) (now : Nat) :
    (ev.relevance_score ≥ settings.AUTO_GENERATE_MIN_SCORE →
      (SourceEval.applyEvalUpdate s
        (SourceEval.evalUpdateData ev settings now)).is_selected = true ∧
      (SourceEval.applyEvalUpdate s
        (SourceEval.evalUpdateData ev settings now)).status =
        SourceEval.SourceStatus.selected ∧
      (SourceEval.applyEvalUpdate s
        (SourceEval.evalUpdateData ev settings now)).selection_note =
        some ("Auto-selected: " ++ ev.reason) ∧
      (SourceEval.applyEvalUpdate s
        (SourceEval.evalUpdateData ev settings now)).relevance_score =
        some ev.relevance_score) ∧
    (ev.relevance_score < settings.AUTO_GENERATE_MIN_SCORE →
      (SourceEval.applyEvalUpdate s
        (SourceEval.evalUpdateData ev settings now)).is_selected = s.is_selected ∧
      (SourceEval.applyEvalUpdate s
        (SourceEval.evalUpdateData ev settings now)).status = s.status ∧
      (SourceEval.applyEvalUpdate s
        (SourceEval.evalUpdateData ev settings now)).selection_note = s.selection_note ∧
      (SourceEval.applyEvalUpdate s
        (SourceEval.evalUpdateData ev settings now)).relevance_score =
        some ev.relevance_score) := by
  constructor
  · intro h
    simp [SourceEval.evalUpdateData, SourceEval.applyEvalUpdate, if_pos h]
  · intro h
    have hneg : ¬ (ev.relevance_score ≥ settings.AUTO_GENERATE_MIN_SCORE) := by omega
    simp [SourceEval.evalUpdateData, SourceEval.applyEvalUpdate, if_neg hneg]

/-- C5 witness: with the default threshold 70, a pending unselected
source scored 85 becomes selected, while one scored 40 keeps
`is_selected = false`. -/
theorem c5_witness :
    ((85 : Int) ≥ GenerateStage.defaultSettings.AUTO_GENERATE_MIN_SCORE ∧
      (SourceEval.applyEvalUpdate
        { relevance_score := none, suggested_topic := none, reviewed_at := none,
          is_selected := false, status := SourceEval.SourceStatus.pending,
          selection_note := none }
        (SourceEval.evalUpdateData
          { relevance_score := 85, suggested_topic := "t", key_points := [],
            reason := "strong", is_recommended := true }
          GenerateStage.defaultSettings 0)).is_selected = true) ∧
    ((40 : Int) < GenerateStage.defaultSettings.AUTO_GENERATE_MIN_SCORE ∧
      (SourceEval.applyEvalUpdate
        { relevance_score := none, suggested_topic := none, reviewed_at := none,
          is_selected := false, status := SourceEval.SourceStatus.pending,
          selection_note := none }
        (SourceEval.evalUpdateData
          { relevance_score := 40, suggested_topic := "t", key_points := [],
            reason := "weak", is_recommended := false }
          GenerateStage.defaultSettings 0)).is_selected = false) := by
  constructor
  · exact ⟨by decide,
      ((c5_auto_selection GenerateStage.defaultSettings _ _ 0).1 (by decide)).1⟩
  · exact ⟨by decide,
      ((c5_auto_selection GenerateStage.defaultSettings
        { relevance_score := none, suggested_topic := none, reviewed_at := none,
          is_selected := false, status := SourceEval.SourceStatus.pending,
          selection_note := none }
        { relevance_score := 40, suggested_topic := "t", key_points := [],
          reason := "weak", is_recommended := false } 0).2 (by decide)).1⟩

/-- C6: the recovery parser returns the last valid candidate of the
fenced code blocks in transcript order (not the first), and a response
whose code blocks yield exactly one object that itself validates without
unwrapping parses to exactly that object. -/
theorem c6_parse_last_valid (text : List Char) :
    (∀ j, (BlogWriter.validCandidates
        (BlogWriter.findJsonInCodeBlocks text)).getLast? = some j →
      BlogWriter.parseArticleResponse text = some j) ∧
    (∀ j, BlogWriter.findJsonInCodeBlocks text = [j] →
      BlogWriter.candidateOf j = some j →
      BlogWriter.parseArticleResponse text = some j) := by
  constructor
  · intro j h
    unfold BlogWriter.parseArticleResponse
    rw [BlogWriter.pickFromRev_reverse_eq, h]
  · intro j hone hcand
    have hlast : (BlogWriter.validCandidates
        (BlogWriter.findJsonInCodeBlocks text)).getLast? = some j := by
      rw [hone]
      simp [BlogWriter.validCandidates, hcand]
    unfold BlogWriter.parseArticleResponse
    rw [BlogWriter.pickFromRev_reverse_eq, hlast]

set_option maxRecDepth 100000 in
/-- C6 witness: on a transcript with two valid fenced JSON blocks the
parser returns the second (last) one. -/
theorem c6_witness :
    (BlogWriter.validCandidates (BlogWriter.findJsonInCodeBlocks c6text)).getLast? =
      some c6objB ∧
    (BlogWriter.validCandidates (BlogWriter.findJsonInCodeBlocks c6text)).length = 2 ∧
    BlogWriter.parseArticleResponse c6text = some c6objB :=
  ⟨by rfl, by rfl, (c6_parse_last_valid c6text).1 c6objB (by rfl)⟩

/-- C7 counterexample: a candidate with an empty title and a content of
exactly 100 characters is accepted by the code's validity check although
the claim's predicate (non-empty title, content length strictly greater
than 100) rejects it. -/
theorem c7_counterexample :
    BlogWriter.isValidArticle c7bad = true ∧
    BlogWriter.specValidArticle c7bad = false :=
  ⟨by rfl, by rfl⟩

/-- C7 amended: a candidate is accepted by the validity check iff it is a
mapping that has a title key (any value, an empty title included) and a
content key holding a string of length at least 100. -/
theorem c7_amended (j : Json) :
    BlogWriter.isValidArticle j = true ↔
      ∃ kvs, j = Json.obj kvs ∧ objHasKey kvs BlogWriter.titleKey = true ∧
        ∃ c, objLookup kvs BlogWriter.contentKey = some (Json.str c) ∧
          100 ≤ c.length := by
  cases j with
  | obj kvs =>
    by_cases ht : objHasKey kvs BlogWriter.titleKey
    · rcases hc : objLookup kvs BlogWriter.contentKey with _ | v
      · simp [BlogWriter.isValidArticle, objHasKey, ht, hc]
      · cases v <;>
          simp [BlogWriter.isValidArticle, objHasKey, ht, hc]
    · simp [BlogWriter.isValidArticle, ht]
  | null => simp [BlogWriter.isValidArticle]
  | bool b => simp [BlogWriter.isValidArticle]
  | num n => simp [BlogWriter.isValidArticle]
  | str s => simp [BlogWriter.isValidArticle]
  | arr l => simp [BlogWriter.isValidArticle]

/-- C8 counterexample: with `slug_exists` answering true, true, false on
successive calls, the slug-collision loop produces "my-title-1", not the
"my-title-2" the claim expects. -/
theorem c8_counterexample :
    GenerateStage.resolveSlugCollision [true, true, false] "my-title" = "my-title-1" ∧
    GenerateStage.resolveSlugCollision [true, true, false] "my-title" ≠ "my-title-2" := by
  constructor
  · rfl
  · decide

/-- C8 amended: collisions are resolved by a numeric suffix, but the
loop re-queries the unchanged slug first: successive answers true, true,
false give "my-title-1", and "my-title-2" arises from answers true,
true, true, false (base slug taken, "-1" taken, "-2" free). -/
theorem c8_amended :
    GenerateStage.resolveSlugCollision [true, true, false] "my-title" = "my-title-1" ∧
    GenerateStage.resolveSlugCollision [true, true, true, false] "my-title" =
      "my-title-2" := by
  constructor <;> rfl

/-- C9 counterexample: completing two steps leaves a running record with
two completion flags True, and `mark_completed` on a fresh record yields
status completed with all flags still False — both halves of the
claimed invariant fail on the repository operations. -/
theorem c9_counterexample :
    ((PipelineStateRepo.applyOps (PipelineStateRepo.create PipelineStateRepo.Edition.morning)
        [PipelineStateRepo.POp.stepCompleted PipelineStateRepo.PStep.scrape 0 1,
         PipelineStateRepo.POp.stepCompleted PipelineStateRepo.PStep.evaluate 0 2]).status =
      PipelineStateRepo.PStatus.running ∧
     (PipelineStateRepo.applyOps (PipelineStateRepo.create PipelineStateRepo.Edition.morning)
        [PipelineStateRepo.POp.stepCompleted PipelineStateRepo.PStep.scrape 0 1,
         PipelineStateRepo.POp.stepCompleted PipelineStateRepo.PStep.evaluate 0 2]).scrape_completed =
      true ∧
     (PipelineStateRepo.applyOps (PipelineStateRepo.create PipelineStateRepo.Edition.morning)
        [PipelineStateRepo.POp.stepCompleted PipelineStateRepo.PStep.scrape 0 1,
         PipelineStateRepo.POp.stepCompleted PipelineStateRepo.PStep.evaluate 0 2]).evaluate_completed =
      true) ∧
    ((PipelineStateRepo.applyOps (PipelineStateRepo.create PipelineStateRepo.Edition.morning)
        [PipelineStateRepo.POp.completed 5]).status = PipelineStateRepo.PStatus.completed ∧
     (PipelineStateRepo.applyOps (PipelineStateRepo.create PipelineStateRepo.Edition.morning)
        [PipelineStateRepo.POp.completed 5]).scrape_completed = false) :=
  ⟨⟨rfl, rfl, rfl⟩, ⟨rfl, rfl⟩⟩

/-- C9 amended: the completion flags are independent and monotone: after
any operation sequence from `create`, a step's flag is True exactly when
`mark_step_completed` ran for that step; status transitions never touch
the flags, so any number of flags (0–3) can be True on a running record
and a completed record's flags reflect only the step operations
performed. -/
theorem c9_amended (e : PipelineStateRepo.Edition) (ops : List PipelineStateRepo.POp) :
    ((PipelineStateRepo.applyOps (PipelineStateRepo.create e) ops).scrape_completed =
      ops.any (PipelineStateRepo.isStepOp PipelineStateRepo.PStep.scrape)) ∧
    ((PipelineStateRepo.applyOps (PipelineStateRepo.create e) ops).evaluate_completed =
      ops.any (PipelineStateRepo.isStepOp PipelineStateRepo.PStep.evaluate)) ∧
    ((PipelineStateRepo.applyOps (PipelineStateRepo.create e) ops).generate_completed =
      ops.any (PipelineStateRepo.isStepOp PipelineStateRepo.PStep.generate)) := by
  refine ⟨?_, ?_, ?_⟩
  · simpa [PipelineStateRepo.create] using
      PipelineStateRepo.applyOps_scrape_flag ops (PipelineStateRepo.create e)
  · simpa [PipelineStateRepo.create] using
      PipelineStateRepo.applyOps_evaluate_flag ops (PipelineStateRepo.create e)
  · simpa [PipelineStateRepo.create] using
      PipelineStateRepo.applyOps_generate_flag ops (PipelineStateRepo.create e)

/-- C10: `validate_url` probes with a HEAD request, falls back to GET
exactly when HEAD raises HTTPStatusError (the GET response is otherwise
irrelevant), reports `is_valid` true iff the final response status code
lies in [200, 400), and maps transport failures to `is_valid` false with
the categorized error reason (timeout, too many redirects, connection
failed, other). -/
theorem c10_validate_url (url : String)
    (headR getR : Except RefValidator.HttpFailure RefValidator.HttpResponse) :
    (∀ resp, headR = Except.ok resp →
      ((RefValidator.validateUrl url headR getR).is_valid = true ↔
        (200 ≤ resp.status_code ∧ resp.status_code < 400)) ∧
      (RefValidator.validateUrl url headR getR).status_code = some resp.status_code ∧
      (RefValidator.validateUrl url headR getR).error = none) ∧
    (∀ resp, headR = Except.error RefValidator.HttpFailure.statusError →
      getR = Except.ok resp →
      ((RefValidator.validateUrl url headR getR).is_valid = true ↔
        (200 ≤ resp.status_code ∧ resp.status_code < 400)) ∧
      (RefValidator.validateUrl url headR getR).status_code = some resp.status_code) ∧
    (∀ f, headR = Except.error f → f ≠ RefValidator.HttpFailure.statusError →
      (RefValidator.validateUrl url headR getR).is_valid = false ∧
      (RefValidator.validateUrl url headR getR).error =
        some (RefValidator.categorizedError f)) ∧
    (∀ f, headR = Except.error RefValidator.HttpFailure.statusError →
      getR = Except.error f →
      (RefValidator.validateUrl url headR getR).is_valid = false ∧
      (RefValidator.validateUrl url headR getR).error =
        some (RefValidator.categorizedError f)) ∧
    (headR ≠ Except.error RefValidator.HttpFailure.statusError →
      ∀ getR2, RefValidator.validateUrl url headR getR =
        RefValidator.validateUrl url headR getR2) := by
  refine ⟨?_, ?_, ?_, ?_, ?_⟩
  · intro resp h
    subst h
    simp [RefValidator.validateUrl]
  · intro resp h1 h2
    subst h1; subst h2
    simp [RefValidator.validateUrl]
  · intro f h1 h2
    subst h1
    cases f with
    | statusError => exact absurd rfl h2
    | timeout => simp [RefValidator.validateUrl, RefValidator.categorizedError]
    | tooManyRedirects => simp [RefValidator.validateUrl, RefValidator.categorizedError]
    | connectError => simp [RefValidator.validateUrl, RefValidator.categorizedError]
    | other m =>
      simp [RefValidator.validateUrl, RefValidator.categorizedError,
        RefValidator.genericErrorText]
  · intro f h1 h2
    subst h1; subst h2
    cases f with
    | statusError =>
      simp [RefValidator.validateUrl, RefValidator.categorizedError,
        RefValidator.genericErrorText]
    | timeout => simp [RefValidator.validateUrl, RefValidator.categorizedError]
    | tooManyRedirects => simp [RefValidator.validateUrl, RefValidator.categorizedError]
    | connectError => simp [RefValidator.validateUrl, RefValidator.categorizedError]
    | other m =>
      simp [RefValidator.validateUrl, RefValidator.categorizedError,
        RefValidator.genericErrorText]
  · intro h getR2
    cases headR with
    | ok resp => simp [RefValidator.validateUrl]
    | error f =>
      cases f with
      | statusError => exact absurd rfl h
      | timeout => simp [RefValidator.validateUrl]
      | tooManyRedirects => simp [RefValidator.validateUrl]
      | connectError => simp [RefValidator.validateUrl]
      | other m => simp [RefValidator.validateUrl]

/-- C10 witness: a 200 HEAD response is valid; a HEAD rejected with
HTTPStatusError falls back to the GET response (404 recorded, invalid);
an unreachable host reports "Connection failed"; a timeout reports
"Request timed out". -/
theorem c10_witness :
    ((Except.ok { status_code := 200, url := "https://example.com/200" } :
        Except RefValidator.HttpFailure RefValidator.HttpResponse) =
      Except.ok { status_code := 200, url := "https://example.com/200" } ∧
      (RefValidator.validateUrl "https://example.com/200"
        (Except.ok { status_code := 200, url := "https://example.com/200" })
        (Except.ok { status_code := 200, url := "https://example.com/200" })).is_valid =
        true) ∧
    ((RefValidator.validateUrl "https://example.com/404"
        (Except.error RefValidator.HttpFailure.statusError)
        (Except.ok { status_code := 404, url := "https://example.com/404" })).status_code =
      some 404) ∧
    ((RefValidator.validateUrl "https://nonexistent.invalid/"
        (Except.error RefValidator.HttpFailure.connectError)
        (Except.error RefValidator.HttpFailure.connectError)).is_valid = false ∧
     (RefValidator.validateUrl "https://nonexistent.invalid/"
        (Except.error RefValidator.HttpFailure.connectError)
        (Except.error RefValidator.HttpFailure.connectError)).error =
       some "Connection failed") ∧
    ((RefValidator.validateUrl "https://example.com/slow"
        (Except.error RefValidator.HttpFailure.timeout)
        (Except.error RefValidator.HttpFailure.timeout)).error =
      some "Request timed out") := by
  refine ⟨⟨rfl, ?_⟩, ?_, ?_, ?_⟩
  · exact ((c10_validate_url "https://example.com/200"
      (Except.ok { status_code := 200, url := "https://example.com/200" })
      (Except.ok { status_code := 200, url := "https://example.com/200" })).1
      { status_code := 200, url := "https://example.com/200" } rfl).1.mpr (by norm_num)
  · exact ((c10_validate_url "https://example.com/404"
      (Except.error RefValidator.HttpFailure.statusError)
      (Except.ok { status_code := 404, url := "https://example.com/404" })).2.1
      { status_code := 404, url := "https://example.com/404" } rfl rfl).2
  · exact (c10_validate_url "https://nonexistent.invalid/"
      (Except.error RefValidator.HttpFailure.connectError)
      (Except.error RefValidator.HttpFailure.connectError)).2.2.1
      RefValidator.HttpFailure.connectError rfl (by intro h; cases h)
  · exact ((c10_validate_url "https://example.com/slow"
      (Except.error RefValidator.HttpFailure.timeout)
      (Except.error RefValidator.HttpFailure.timeout)).2.2.1
      RefValidator.HttpFailure.timeout rfl (by intro h; cases h)).2
